import Mathlib

/-!
Verification of the beehive-monitoring pipeline's feature-vector builder and
rule-based behavior classifier, as implemented identically in
cloud_function/main.py and scripts/simulate_local.py, together with the alert
gating of process_gcs_event (cloud_function/main.py) and process_audio
(src/cloud/process_audio.py).

Python floats are modelled as rationals; numpy NaN semantics (mean of an empty
slice) are modelled with Option. Python's stable sort is modelled by
List.insertionSort, which is stable and therefore produces the same output.
-/

namespace Beehive

/-- Model of the numeric value of a decimal digit run; callers guarantee the
characters are digits. -/
def digitsToNat (cs : List Char) : Nat :=
  cs.foldl (fun acc c => acc * 10 + (c.toNat - 48)) 0

/-- All characters are decimal digits. -/
def allDigits (cs : List Char) : Bool :=
  cs.all Char.isDigit

/-- Split a character list on a separator character. -/
def splitOnChar (sep : Char) : List Char → List (List Char)
  | [] => [[]]
  | c :: cs =>
    let rest := splitOnChar sep cs
    if c = sep then [] :: rest
    else
      match rest with
      | [] => [[c]]
      | g :: gs => (c :: g) :: gs

/-- Integer power of ten as a rational, for exponent parts. -/
def pow10 (z : Int) : ℚ :=
  if 0 ≤ z then (10 : ℚ) ^ z.toNat else 1 / (10 : ℚ) ^ (-z).toNat

/-- Parse the mantissa part of a Python float literal: digits with an optional
single decimal point; at least one digit overall. -/
def parseMantissa (cs : List Char) : Option ℚ :=
  match splitOnChar '.' cs with
  | [ip] => if ip ≠ [] ∧ allDigits ip then some (digitsToNat ip) else none
  | [ip, fp] =>
    if (ip ≠ [] ∨ fp ≠ []) ∧ allDigits ip ∧ allDigits fp then
      some ((digitsToNat ip : ℚ) + (digitsToNat fp : ℚ) / (10 : ℚ) ^ fp.length)
    else none
  | _ => none

/-- Parse an exponent part: optional sign, then a nonempty digit run. -/
def parseExp (cs : List Char) : Option Int :=
  match cs with
  | '-' :: rest => if rest ≠ [] ∧ allDigits rest then some (-(digitsToNat rest : Int)) else none
  | '+' :: rest => if rest ≠ [] ∧ allDigits rest then some ((digitsToNat rest : Int)) else none
  | _ => if cs ≠ [] ∧ allDigits cs then some ((digitsToNat cs : Int)) else none

/-- The whitespace characters float(s) strips from both ends: ASCII whitespace
(9-13, 28-31, space) and the Unicode space and line/paragraph separators that
CPython maps to an ASCII space before parsing. -/
def isPySpace (c : Char) : Bool :=
  decide (c.toNat = 32 ∨ (9 ≤ c.toNat ∧ c.toNat ≤ 13) ∨ (28 ≤ c.toNat ∧ c.toNat ≤ 31) ∨
    c.toNat = 133 ∨ c.toNat = 160 ∨ c.toNat = 5760 ∨ (8192 ≤ c.toNat ∧ c.toNat ≤ 8202) ∨
    c.toNat = 8232 ∨ c.toNat = 8233 ∨ c.toNat = 8239 ∨ c.toNat = 8287 ∨ c.toNat = 12288)

/-- Strip leading and trailing whitespace, as float(s) does. -/
def stripPySpace (cs : List Char) : List Char :=
  ((cs.dropWhile isPySpace).reverse.dropWhile isPySpace).reverse

/-- Lower-case an ASCII letter, for the case-insensitive special literals. -/
def toLowerAscii (c : Char) : Char :=
  if 65 ≤ c.toNat ∧ c.toNat ≤ 90 then Char.ofNat (c.toNat + 32) else c

/-- PEP 515 underscore grouping: every underscore must be immediately flanked
by ASCII digits. The first argument is the previous character, if any. -/
def underscoresOkAux : Option Char → List Char → Bool
  | _, [] => true
  | prev, c :: rest =>
    if c = '_' then
      (match prev, rest with
       | some p, n :: _ => p.isDigit && n.isDigit
       | _, _ => false) && underscoresOkAux (some c) rest
    else underscoresOkAux (some c) rest

/-- Check underscore grouping over a whole character list. -/
def underscoresOk (cs : List Char) : Bool :=
  underscoresOkAux none cs

/-- The values float(s) can produce: NaN, a signed infinity, or a finite
value (modelled as a rational). -/
inductive PyFloat where
  | nan : PyFloat
  | inf : Bool → PyFloat
  | fin : ℚ → PyFloat
  deriving DecidableEq

/-- The numeric (non-special) part of the float grammar, sign removed and
underscores already stripped: decimal mantissa with optional e/E exponent. -/
def parseNumber (cs : List Char) : Option ℚ :=
  let norm := cs.map (fun c => if c = 'E' then 'e' else c)
  match splitOnChar 'e' norm with
  | [mant] => parseMantissa mant
  | [mant, ex] =>
    match parseMantissa mant, parseExp ex with
    | some m, some z => some (m * pow10 z)
    | _, _ => none
  | _ => none

/-- Model of the Python builtin float(s) applied to a frequency key:
surrounding whitespace stripped, optional sign, the case-insensitive special
literals nan, inf and infinity, or a decimal mantissa with optional e/E
exponent and PEP 515 underscore grouping. Returns none on a parse failure
(Python ValueError). Scope note: CPython first transforms Unicode decimal
digits (category Nd) to ASCII; this model covers the grammar over ASCII
digits, so theorems about parse failure are stated for ASCII keys, where the
model is exact. -/
def parseFloat (s : String) : Option PyFloat :=
  let cs := stripPySpace s.data
  let signBody : Bool × List Char :=
    match cs with
    | '-' :: rest => (true, rest)
    | '+' :: rest => (false, rest)
    | _ => (false, cs)
  let low := signBody.2.map toLowerAscii
  if low = ['n', 'a', 'n'] then some PyFloat.nan
  else if low = ['i', 'n', 'f'] ∨ low = ['i', 'n', 'f', 'i', 'n', 'i', 't', 'y'] then
    some (PyFloat.inf signBody.1)
  else if underscoresOk signBody.2 then
    (parseNumber (signBody.2.filter (fun c => c ≠ '_'))).map
      (fun m => PyFloat.fin (if signBody.1 then -m else m))
  else none

/-- The key parses to a finite float. -/
def parsesFinite (s : String) : Bool :=
  match parseFloat s with
  | some (PyFloat.fin _) => true
  | _ => false

/-- The finite numeric value of a key, defaulting to 0 off the finite
domain. -/
def floatValD (s : String) : ℚ :=
  match parseFloat s with
  | some (PyFloat.fin q) => q
  | _ => 0

/-- Why the builder model declines to return a vector: badKey when some key
makes float() raise ValueError (the program fails there); nonFiniteKey when
every key parses but some is NaN or infinite, in which case the program does
sort and succeed but by non-finite keys, which this model leaves
unspecified. -/
inductive BuildFailure where
  | badKey : BuildFailure
  | nonFiniteKey : BuildFailure
  deriving DecidableEq

instance {ε : Type u} {α : Type v} [DecidableEq ε] [DecidableEq α] :
    DecidableEq (Except ε α) := fun x y =>
  match x, y with
  | .error a, .error b =>
    match decEq a b with
    | isTrue h => isTrue (by rw [h])
    | isFalse h => isFalse (by intro hc; cases hc; exact h rfl)
  | .error _, .ok _ => isFalse (by intro hc; cases hc)
  | .ok _, .error _ => isFalse (by intro hc; cases hc)
  | .ok a, .ok b =>
    match decEq a b with
    | isTrue h => isTrue (by rw [h])
    | isFalse h => isFalse (by intro hc; cases hc; exact h rfl)

/-- The three density metrics carried in the payload dictionary; a field is
none when the key is absent, and the source reads it with .get(key, 0). -/
structure DensityMetrics where
  audio_density : Option ℚ
  audio_density_ratio : Option ℚ
  density_variation : Option ℚ
  deriving DecidableEq

/-- Pair each FrequencyMap entry with the parsed numeric value of its key, in
iteration order. Any unparseable key gives badKey (the key function of
sorted(...) raising ValueError, whichever entry it hits first); otherwise any
NaN or infinite key gives nonFiniteKey (the sort succeeds in Python but is
outside this model). -/
def decorate : List (String × ℚ) → Except BuildFailure (List (ℚ × ℚ))
  | [] => .ok []
  | kv :: rest =>
    match parseFloat kv.1 with
    | none => .error .badKey
    | some (PyFloat.fin q) =>
      match decorate rest with
      | .ok ds => .ok ((q, kv.2) :: ds)
      | .error e => .error e
    | some _ =>
      match decorate rest with
      | .error .badKey => .error .badKey
      | _ => .error .nonFiniteKey

/-- Every key of the FrequencyMap parses as a finite number. -/
def AllParse (l : List (String × ℚ)) : Prop :=
  ∀ kv ∈ l, parsesFinite kv.1 = true

instance (l : List (String × ℚ)) : Decidable (AllParse l) :=
  inferInstanceAs (Decidable (∀ kv ∈ l, parsesFinite kv.1 = true))

/-- Total variant of decorate, meaningful under AllParse. -/
def decorateT (l : List (String × ℚ)) : List (ℚ × ℚ) :=
  l.map (fun kv => (floatValD kv.1, kv.2))

/-- Model of sorted(items, key=lambda x: float(x[0])): Python sort is stable,
so a stable insertion sort on the parsed numeric key computes it. -/
def sortByNumKey (l : List (ℚ × ℚ)) : List (ℚ × ℚ) :=
  List.insertionSort (fun a b => a.1 ≤ b.1) l

/-- prepare_feature_vector from cloud_function/main.py (the copy in
scripts/simulate_local.py is identical): amplitudes sorted by numeric key,
then the three density metrics with default 0; the error cases are the ones
of decorate. -/
def prepare_feature_vector (frequencies : List (String × ℚ))
    (density_metrics : DensityMetrics) : Except BuildFailure (List ℚ) :=
  (decorate frequencies).map (fun sorted_freqs =>
    (sortByNumKey sorted_freqs).map Prod.snd ++
      [density_metrics.audio_density.getD 0,
       density_metrics.audio_density_ratio.getD 0,
       density_metrics.density_variation.getD 0])

/-- np.mean of a slice: none models NaN (numpy's mean of an empty slice). -/
def npMean (l : List ℚ) : Option ℚ :=
  if l.isEmpty then none else some (l.sum / (l.length : ℚ))

/-- The comparison a > b under numpy NaN semantics: any comparison with NaN
is false. -/
def nanGt (a b : Option ℚ) : Bool :=
  match a, b with
  | some x, some y => decide (y < x)
  | _, _ => false

/-- The label table LABELS = ["normal", "swarming", "distress"]. -/
def LABELS : List String := ["normal", "swarming", "distress"]

/-- The rule-based fallback of predict_behavior (model is None), returning the
predicted class index: halves split at len//2, density = fv[-3] when the
length exceeds 3 else 0, variation = fv[-1] when the length exceeds 1 else 0,
then the threshold rules. -/
def rulePredict (fv : List ℚ) : Nat :=
  let n := fv.length
  let high_freqs := fv.drop (n / 2)
  let low_freqs := fv.take (n / 2)
  let density : ℚ := if 3 < n then fv.getD (n - 3) 0 else 0
  let variation : ℚ := if 1 < n then fv.getD (n - 1) 0 else 0
  if 35 < variation ∨ 20 < density then 1
  else if nanGt (npMean low_freqs) ((npMean high_freqs).map (fun m => m * (3 / 2))) then 2
  else 0

/-- Apply a list of index/value updates to a list, as numpy fancy-index
assignment probabilities[other_indices] = [...] does pairwise. -/
def setMany (l : List ℚ) (us : List (Nat × ℚ)) : List ℚ :=
  us.foldl (fun acc u => acc.set u.1 u.2) l

/-- The fake probability vector of the fallback branch: zeros(3), 0.85 at the
predicted index, then [0.1, 0.05] at the remaining indices in ascending
order. -/
def fakeProbs (p : Nat) : List ℚ :=
  let zeros : List ℚ := List.replicate 3 0
  let withMain := zeros.set p (85 / 100)
  let others := (List.range 3).filter (fun i => i != p)
  setMany withMain (others.zip [1 / 10, 1 / 20])

/-- The dictionary returned by predict_behavior. -/
structure ClassificationResult where
  prediction : String
  confidence : ℚ
  probabilities : List (String × ℚ)
  deriving DecidableEq

/-- predict_behavior from cloud_function/main.py with model = None (the copy
in scripts/simulate_local.py is identical): rule-based index, fake
probabilities, label lookup and confidence extraction. -/
def predict_behavior (feature_vector : List ℚ) : ClassificationResult :=
  let prediction := rulePredict feature_vector
  let probabilities := fakeProbs prediction
  { prediction := LABELS.getD prediction ""
    confidence := probabilities.getD prediction 0
    probabilities := LABELS.zip probabilities }

/-- The alert gate of process_gcs_event (cloud_function/main.py line 172):
prediction in ['swarming', 'distress'] and confidence > 0.6. -/
def process_gcs_alert (r : ClassificationResult) : Bool :=
  (["swarming", "distress"].contains r.prediction) && decide ((6 : ℚ) / 10 < r.confidence)

/-- np.ndarray.max over a probability vector, as used in the alert message of
process_audio; the source never applies it to an empty array. -/
def np_max : List ℚ → ℚ
  | [] => 0
  | x :: xs => xs.foldl max x

/-- The alert gate of process_audio (src/cloud/process_audio.py line 81):
prediction_label in ['swarming', 'distress'], with no confidence test. -/
def process_audio_alert (prediction_label : String) : Bool :=
  ["swarming", "distress"].contains prediction_label

attribute [local semireducible] Rat.mul Rat.inv Rat.add Rat.sub Rat.ofScientific

/-- The rule-based branch only ever produces the indices 0, 1 and 2. -/
theorem rulePredict_cases (fv : List ℚ) :
    rulePredict fv = 0 ∨ rulePredict fv = 1 ∨ rulePredict fv = 2 := by
  simp only [rulePredict]
  split_ifs <;> simp

/-- predict_behavior is determined by the rule-based index. -/
theorem predict_behavior_eq (fv : List ℚ) :
    predict_behavior fv =
      { prediction := LABELS.getD (rulePredict fv) ""
        confidence := (fakeProbs (rulePredict fv)).getD (rulePredict fv) 0
        probabilities := LABELS.zip (fakeProbs (rulePredict fv)) } := rfl

/-- C1: on the fallback branch the probability map assigns exactly 0.85 to the
predicted label, the two non-predicted labels carry exactly 0.10 and 0.05 in
ascending label-index order, and the three probabilities sum to 1. -/
theorem C1_fallback_probability_assignment (fv : List ℚ) :
    ((predict_behavior fv).probabilities.lookup (predict_behavior fv).prediction =
      some (85 / 100)) ∧
    (((predict_behavior fv).probabilities.filter
        (fun kv => kv.1 != (predict_behavior fv).prediction)).map Prod.snd = [1 / 10, 1 / 20]) ∧
    ((predict_behavior fv).probabilities.map Prod.snd).sum = 1 := by
  rcases rulePredict_cases fv with h | h | h <;> (rw [predict_behavior_eq, h]; decide)

/-- C9: the returned confidence is exactly the probability the returned map
assigns to the returned label, and it is the strict maximum, so the predicted
label is the unique argmax of the distribution. -/
theorem C9_confidence_is_strict_max (fv : List ℚ) :
    ((predict_behavior fv).probabilities.lookup (predict_behavior fv).prediction =
      some (predict_behavior fv).confidence) ∧
    ∀ kv ∈ (predict_behavior fv).probabilities,
      kv.1 ≠ (predict_behavior fv).prediction → kv.2 < (predict_behavior fv).confidence := by
  rcases rulePredict_cases fv with h | h | h <;> (rw [predict_behavior_eq, h]; decide)

/-- On a vector of length at most one the guarded reads default to 0 and the
low half is empty, so the NaN-semantics mean comparison is false and the
rule-based branch predicts index 0. -/
theorem rulePredict_short (fv : List ℚ) (h : fv.length ≤ 1) : rulePredict fv = 0 := by
  match fv, h with
  | [], _ => decide
  | [x], _ => norm_num [rulePredict, npMean, nanGt]

/-- C4 counterexample: at the empty vector (length 0 ≤ 1) the fallback branch
of predict_behavior does not fail; it returns a full ClassificationResult. -/
theorem C4_counterexample_returns_result :
    (([] : List ℚ).length ≤ 1) ∧
    predict_behavior [] =
      { prediction := "normal", confidence := 85 / 100,
        probabilities := [("normal", 85 / 100), ("swarming", 1 / 10), ("distress", 1 / 20)] } :=
  ⟨by decide, by decide⟩

/-- C4 amended: for every feature vector of length at most 1 the fallback
branch does not fail: both guarded reads default to 0, the mean comparison is
false under NaN semantics, and the classifier returns the normal result with
confidence 0.85. -/
theorem C4_amended_short_vector_returns_normal (fv : List ℚ) (h : fv.length ≤ 1) :
    predict_behavior fv =
      { prediction := "normal", confidence := 85 / 100,
        probabilities := [("normal", 85 / 100), ("swarming", 1 / 10), ("distress", 1 / 20)] } := by
  rw [predict_behavior_eq, rulePredict_short fv h]; decide

/-- Witness for C4 amended at the one-element vector [50]. -/
theorem C4_amended_witness :
    (([(50 : ℚ)] : List ℚ).length ≤ 1) ∧
    predict_behavior [(50 : ℚ)] =
      { prediction := "normal", confidence := 85 / 100,
        probabilities := [("normal", 85 / 100), ("swarming", 1 / 10), ("distress", 1 / 20)] } :=
  ⟨by decide, C4_amended_short_vector_returns_normal [(50 : ℚ)] (by decide)⟩

/-- np.mean of a nonempty slice is the plain arithmetic mean. -/
theorem npMean_of_ne_nil {l : List ℚ} (h : l ≠ []) :
    npMean l = some (l.sum / (l.length : ℚ)) := by
  simp [npMean, h]

/-- C2: for vectors of length at least 2 the fallback branch computes exactly
the claimed rule: swarming when the last element exceeds 35 or the element at
index n-3 (n above 3, else 0) exceeds 20; otherwise distress when the mean of
the first n/2 elements exceeds 1.5 times the mean of the rest; otherwise
normal. -/
theorem C2_fallback_rule_structure (fv : List ℚ) (h : 2 ≤ fv.length) :
    rulePredict fv =
      if 35 < fv.getD (fv.length - 1) 0 ∨
          20 < (if 3 < fv.length then fv.getD (fv.length - 3) 0 else 0) then 1
      else if (fv.take (fv.length / 2)).sum / ((fv.take (fv.length / 2)).length : ℚ) >
          3 / 2 * ((fv.drop (fv.length / 2)).sum / ((fv.drop (fv.length / 2)).length : ℚ)) then 2
      else 0 := by
  have hn1 : 1 < fv.length := h
  have hlow : fv.take (fv.length / 2) ≠ [] := by
    rw [Ne, List.take_eq_nil_iff]
    push_neg
    constructor
    · have : 1 ≤ fv.length / 2 := Nat.le_div_iff_mul_le (by norm_num) |>.mpr (by omega)
      omega
    · intro hfv
      rw [hfv] at h
      simp at h
  have hhigh : fv.drop (fv.length / 2) ≠ [] := by
    rw [Ne, List.drop_eq_nil_iff]
    have : fv.length / 2 < fv.length := Nat.div_lt_self (by omega) (by norm_num)
    omega
  simp only [rulePredict, if_pos hn1, npMean_of_ne_nil hlow, npMean_of_ne_nil hhigh,
    Option.map_some', nanGt]
  rcases le_or_lt ((fv.take (fv.length / 2)).sum / ((fv.take (fv.length / 2)).length : ℚ))
      (3 / 2 * ((fv.drop (fv.length / 2)).sum / ((fv.drop (fv.length / 2)).length : ℚ))) with
    hm | hm
  · have hb : (decide ((fv.drop (fv.length / 2)).sum / ((fv.drop (fv.length / 2)).length : ℚ) *
        (3 / 2) < (fv.take (fv.length / 2)).sum / ((fv.take (fv.length / 2)).length : ℚ)) =
        false) := by
      rw [decide_eq_false_iff_not]
      intro hc
      rw [mul_comm] at hc
      exact absurd hm (not_le.mpr hc)
    rw [hb]
    split_ifs <;> first | rfl | linarith | simp_all
  · have hb : (decide ((fv.drop (fv.length / 2)).sum / ((fv.drop (fv.length / 2)).length : ℚ) *
        (3 / 2) < (fv.take (fv.length / 2)).sum / ((fv.take (fv.length / 2)).length : ℚ)) =
        true) := by
      rw [decide_eq_true_iff]
      rw [mul_comm]
      exact hm
    rw [hb]
    split_ifs <;> first | rfl | linarith | simp_all

/-- Witness for C2 at [100, 1]: the low-half mean 100 exceeds 1.5, so the
distress index 2 is produced by both the code and the claimed rule. -/
theorem C2_witness :
    (2 ≤ ([(100 : ℚ), 1] : List ℚ).length) ∧
    rulePredict [(100 : ℚ), 1] =
      (if 35 < ([(100 : ℚ), 1] : List ℚ).getD (([(100 : ℚ), 1] : List ℚ).length - 1) 0 ∨
          20 < (if 3 < ([(100 : ℚ), 1] : List ℚ).length then
            ([(100 : ℚ), 1] : List ℚ).getD (([(100 : ℚ), 1] : List ℚ).length - 3) 0 else 0) then 1
      else if (([(100 : ℚ), 1] : List ℚ).take (([(100 : ℚ), 1] : List ℚ).length / 2)).sum /
            ((([(100 : ℚ), 1] : List ℚ).take (([(100 : ℚ), 1] : List ℚ).length / 2)).length : ℚ) >
          3 / 2 * ((([(100 : ℚ), 1] : List ℚ).drop (([(100 : ℚ), 1] : List ℚ).length / 2)).sum /
            ((([(100 : ℚ), 1] : List ℚ).drop (([(100 : ℚ), 1] : List ℚ).length / 2)).length : ℚ))
          then 2
      else 0) :=
  ⟨by decide, C2_fallback_rule_structure [(100 : ℚ), 1] (by decide)⟩

/-- C10: on vectors of length exactly 2 or 3 the density read defaults to 0,
so the fallback branch predicts swarming exactly when the last element
exceeds 35 — even when an element such as audio_density exceeds 20. -/
theorem C10_short_vector_density_ignored (fv : List ℚ)
    (h : fv.length = 2 ∨ fv.length = 3) :
    (rulePredict fv = 1 ↔ 35 < fv.getD (fv.length - 1) 0) := by
  rcases h with h | h <;>
    (simp only [rulePredict, h]; norm_num; split_ifs <;> simp_all)

/-- Witness for C10 at [25, 0, 0]: the audio_density element 25 exceeds 20,
yet swarming is not predicted because the last element is not above 35. -/
theorem C10_witness :
    (([(25 : ℚ), 0, 0] : List ℚ).length = 2 ∨ ([(25 : ℚ), 0, 0] : List ℚ).length = 3) ∧
    (rulePredict [(25 : ℚ), 0, 0] = 1 ↔
      35 < ([(25 : ℚ), 0, 0] : List ℚ).getD (([(25 : ℚ), 0, 0] : List ℚ).length - 1) 0) :=
  ⟨Or.inr (by decide), C10_short_vector_density_ignored [(25 : ℚ), 0, 0] (Or.inr (by decide))⟩

/-- Under AllParse, decorate succeeds and equals its total variant. -/
theorem decorate_of_allParse : ∀ {l : List (String × ℚ)}, AllParse l →
    decorate l = Except.ok (decorateT l)
  | [], _ => rfl
  | kv :: rest, h => by
    have h1 : parsesFinite kv.1 = true := h kv (List.mem_cons_self kv rest)
    have h2 : AllParse rest := fun x hx => h x (List.mem_cons_of_mem kv hx)
    obtain ⟨q, hq⟩ : ∃ q : ℚ, parseFloat kv.1 = some (PyFloat.fin q) := by
      unfold parsesFinite at h1
      cases hp : parseFloat kv.1 with
      | none => rw [hp] at h1; simp at h1
      | some pf =>
        cases pf with
        | nan => rw [hp] at h1; simp at h1
        | inf b => rw [hp] at h1; simp at h1
        | fin q => exact ⟨q, rfl⟩
    simp [decorate, decorateT, hq, decorate_of_allParse h2, floatValD]

/-- decorate preserves length when it succeeds. -/
theorem decorate_length : ∀ {l : List (String × ℚ)} {r : List (ℚ × ℚ)},
    decorate l = Except.ok r → r.length = l.length
  | [], _, h => by simp [decorate] at h; simp [← h]
  | kv :: rest, r, h => by
    simp only [decorate] at h
    cases hp : parseFloat kv.1 with
    | none => rw [hp] at h; simp at h
    | some pf =>
      rw [hp] at h
      cases pf with
      | nan => cases hd : decorate rest with
        | ok ds => rw [hd] at h; simp at h
        | error e => rw [hd] at h; cases e <;> simp at h
      | inf b => cases hd : decorate rest with
        | ok ds => rw [hd] at h; simp at h
        | error e => rw [hd] at h; cases e <;> simp at h
      | fin q =>
        cases hd : decorate rest with
        | ok ds =>
          rw [hd] at h
          simp only [Except.ok.injEq] at h
          rw [← h]
          simp [decorate_length hd]
        | error e => rw [hd] at h; simp at h

/-- decorate reports badKey as soon as any key fails to parse, whatever the
other keys are. -/
theorem decorate_badKey_of_bad : ∀ {l : List (String × ℚ)} {k : String} {v : ℚ},
    (k, v) ∈ l → parseFloat k = none → decorate l = Except.error BuildFailure.badKey
  | kv :: rest, k, v, hm, hbad => by
    rcases List.mem_cons.mp hm with he | ht
    · have h1 : parseFloat kv.1 = none := by rw [← he]; exact hbad
      simp only [decorate]
      rw [h1]
    · have hr := decorate_badKey_of_bad ht hbad
      simp only [decorate]
      rw [hr]
      cases hp : parseFloat kv.1 with
      | none => rfl
      | some pf => cases pf <;> rfl

/-- The sorted decoration is a permutation of the decoration. -/
theorem sortByNumKey_perm (l : List (ℚ × ℚ)) : (sortByNumKey l).Perm l :=
  List.perm_insertionSort _ l

/-- The sorted decoration is weakly sorted on its numeric keys. -/
theorem sortByNumKey_sorted (l : List (ℚ × ℚ)) :
    (sortByNumKey l).Sorted (fun a b => a.1 ≤ b.1) := by
  haveI h1 : IsTotal (ℚ × ℚ) (fun a b => a.1 ≤ b.1) := ⟨fun a b => le_total a.1 b.1⟩
  haveI h2 : IsTrans (ℚ × ℚ) (fun a b => a.1 ≤ b.1) :=
    ⟨fun a b c hab hbc => le_trans hab hbc⟩
  exact List.sorted_insertionSort _ l

/-- A weakly key-sorted list with pairwise distinct keys is strictly
key-sorted. -/
theorem sorted_lt_of_sorted_le_nodup {l : List (ℚ × ℚ)}
    (hs : l.Sorted (fun a b => a.1 ≤ b.1)) (hnd : (l.map Prod.fst).Nodup) :
    l.Sorted (fun a b => a.1 < b.1) := by
  have hne : l.Pairwise (fun a b => a.1 ≠ b.1) := List.pairwise_map.mp hnd
  exact (hs.and hne).imp (fun hab => lt_of_le_of_ne hab.1 hab.2)

/-- Stable sorting by numeric key is permutation-invariant once the numeric
keys are pairwise distinct. -/
theorem sortByNumKey_eq_of_perm {l1 l2 : List (ℚ × ℚ)} (hp : l1.Perm l2)
    (hnd : (l1.map Prod.fst).Nodup) : sortByNumKey l1 = sortByNumKey l2 := by
  have hp1 : (sortByNumKey l1).Perm (sortByNumKey l2) :=
    (sortByNumKey_perm l1).trans (hp.trans (sortByNumKey_perm l2).symm)
  have hnd1 : ((sortByNumKey l1).map Prod.fst).Nodup :=
    (((sortByNumKey_perm l1).map Prod.fst).nodup_iff).mpr hnd
  have hnd2 : ((sortByNumKey l2).map Prod.fst).Nodup :=
    ((((sortByNumKey_perm l2).map Prod.fst).trans ((hp.symm).map Prod.fst)).nodup_iff).mpr hnd
  have hs1 := sorted_lt_of_sorted_le_nodup (sortByNumKey_sorted l1) hnd1
  have hs2 := sorted_lt_of_sorted_le_nodup (sortByNumKey_sorted l2) hnd2
  haveI : IsAntisymm (ℚ × ℚ) (fun a b => a.1 < b.1) :=
    ⟨fun a b hab hba => absurd (lt_trans hab hba) (lt_irrefl _)⟩
  exact List.eq_of_perm_of_sorted hp1 hs1 hs2

/-- C3: when every key parses, the builder output is the amplitudes reordered
by ascending numeric key value followed by the three density metrics with 0
substituted for any absent one. -/
theorem C3_builder_output_shape (freqs : List (String × ℚ)) (dm : DensityMetrics)
    (h : AllParse freqs) :
    ∃ sf : List (ℚ × ℚ),
      prepare_feature_vector freqs dm =
        Except.ok (sf.map Prod.snd ++
          [dm.audio_density.getD 0, dm.audio_density_ratio.getD 0,
            dm.density_variation.getD 0]) ∧
      sf.Perm (decorateT freqs) ∧ sf.Sorted (fun a b => a.1 ≤ b.1) := by
  refine ⟨sortByNumKey (decorateT freqs), ?_, sortByNumKey_perm _, sortByNumKey_sorted _⟩
  unfold prepare_feature_vector
  rw [decorate_of_allParse h]
  rfl

/-- Witness for C3 at the spec scenario: frequencies {"300": 5, "100": 2} and
audio_density 1 produce [2, 5, 1, 0, 0]. -/
theorem C3_witness :
    AllParse [("300", (5 : ℚ)), ("100", 2)] ∧
    (∃ sf : List (ℚ × ℚ),
      prepare_feature_vector [("300", (5 : ℚ)), ("100", 2)] ⟨some 1, none, none⟩ =
        Except.ok (sf.map Prod.snd ++
          [(some (1 : ℚ)).getD 0, (none : Option ℚ).getD 0, (none : Option ℚ).getD 0]) ∧
      sf.Perm (decorateT [("300", (5 : ℚ)), ("100", 2)]) ∧
      sf.Sorted (fun a b => a.1 ≤ b.1)) ∧
    prepare_feature_vector [("300", (5 : ℚ)), ("100", 2)] ⟨some 1, none, none⟩ =
      Except.ok [2, 5, 1, 0, 0] :=
  ⟨by decide, C3_builder_output_shape [("300", (5 : ℚ)), ("100", 2)] ⟨some 1, none, none⟩
    (by decide), by decide⟩

/-- C5 counterexample: the keys "1" and "1.0" are distinct key strings with
equal numeric value 1; the two enumeration orders of the same pairs yield
different feature vectors, because the stable sort preserves the input order
of numerically tied keys. -/
theorem C5_counterexample_tied_keys :
    ([(("1" : String), (2 : ℚ)), ("1.0", 3)]).Perm [("1.0", 3), ("1", 2)] ∧
    prepare_feature_vector [("1", 2), ("1.0", 3)] ⟨none, none, none⟩ ≠
      prepare_feature_vector [("1.0", 3), ("1", 2)] ⟨none, none, none⟩ :=
  ⟨List.Perm.swap _ _ _, by decide⟩

/-- C5 amended: for FrequencyMaps containing the same key-value pairs in
different orders, whose keys all parse and whose parsed numeric key values
are pairwise distinct, the builder returns the same feature vector. -/
theorem C5_amended_order_invariance (f1 f2 : List (String × ℚ)) (dm : DensityMetrics)
    (hperm : f1.Perm f2) (hall : AllParse f1)
    (hnd : ((decorateT f1).map Prod.fst).Nodup) :
    prepare_feature_vector f1 dm = prepare_feature_vector f2 dm := by
  have hall2 : AllParse f2 := fun kv hkv => hall kv (hperm.mem_iff.mpr hkv)
  have hpermT : (decorateT f1).Perm (decorateT f2) := hperm.map _
  unfold prepare_feature_vector
  rw [decorate_of_allParse hall, decorate_of_allParse hall2]
  simp only [Except.map]
  rw [sortByNumKey_eq_of_perm hpermT hnd]

/-- Witness for C5 amended: {"300": 5, "100": 2} enumerated in both orders
gives the same vector. -/
theorem C5_amended_witness :
    ([(("300" : String), (5 : ℚ)), ("100", 2)]).Perm [("100", 2), ("300", 5)] ∧
    AllParse [(("300" : String), (5 : ℚ)), ("100", 2)] ∧
    ((decorateT [(("300" : String), (5 : ℚ)), ("100", 2)]).map Prod.fst).Nodup ∧
    prepare_feature_vector [("300", (5 : ℚ)), ("100", 2)] ⟨none, none, none⟩ =
      prepare_feature_vector [("100", 2), ("300", 5)] ⟨none, none, none⟩ :=
  ⟨List.Perm.swap _ _ _, by decide, by decide,
    C5_amended_order_invariance [("300", (5 : ℚ)), ("100", 2)] [("100", 2), ("300", 5)]
      ⟨none, none, none⟩ (List.Perm.swap _ _ _) (by decide) (by decide)⟩

/-- C6: whenever the builder returns a vector, its length is the number of
FrequencyMap entries plus 3. -/
theorem C6_output_length (freqs : List (String × ℚ)) (dm : DensityMetrics)
    (out : List ℚ) (h : prepare_feature_vector freqs dm = Except.ok out) :
    out.length = freqs.length + 3 := by
  unfold prepare_feature_vector at h
  cases hd : decorate freqs with
  | error e => rw [hd] at h; simp [Except.map] at h
  | ok d =>
    rw [hd] at h
    simp only [Except.map, Except.ok.injEq] at h
    rw [← h]
    simp [sortByNumKey, List.length_insertionSort, decorate_length hd]

/-- Witness for C6 at a one-entry FrequencyMap. -/
theorem C6_witness :
    prepare_feature_vector [(("10" : String), (7 : ℚ))] ⟨none, none, none⟩ =
      Except.ok [7, 0, 0, 0] ∧
    ([(7 : ℚ), 0, 0, 0] : List ℚ).length = [(("10" : String), (7 : ℚ))].length + 3 :=
  ⟨by decide, C6_output_length [(("10" : String), (7 : ℚ))] ⟨none, none, none⟩
    [7, 0, 0, 0] (by decide)⟩

/-- C7: a FrequencyMap containing a key that does not parse as a number makes
the builder fail (the sort key raising ValueError), with no skipping and no
default substitution. The key is required to be ASCII because that is the
domain on which the parse model is exact; CPython additionally maps Unicode
decimal digits to ASCII before parsing, which the model does not cover. -/
theorem C7_bad_key_fails (freqs : List (String × ℚ)) (dm : DensityMetrics)
    (k : String) (v : ℚ) (hk : (k, v) ∈ freqs)
    (hascii : ∀ c ∈ k.data, c.toNat < 128) (hbad : parseFloat k = none) :
    prepare_feature_vector freqs dm = Except.error BuildFailure.badKey := by
  unfold prepare_feature_vector
  rw [decorate_badKey_of_bad hk hbad]
  rfl

/-- Witness for C7 at the non-numeric ASCII key "abc". -/
theorem C7_witness :
    (("abc", (1 : ℚ)) ∈ [(("abc" : String), (1 : ℚ))]) ∧
    (∀ c ∈ ("abc" : String).data, c.toNat < 128) ∧
    parseFloat "abc" = none ∧
    prepare_feature_vector [(("abc" : String), (1 : ℚ))] ⟨none, none, none⟩ =
      Except.error BuildFailure.badKey :=
  ⟨List.mem_singleton_self _, by decide, by decide,
    C7_bad_key_fails [(("abc" : String), (1 : ℚ))] ⟨none, none, none⟩ "abc" 1
      (List.mem_singleton_self _) (by decide) (by decide)⟩

/-- C8 counterexample: process_audio invokes the notifier for a swarming
classification even when the maximal probability is 0.5, which is not above
the 0.6 threshold the claim requires. -/
theorem C8_counterexample_no_confidence_gate :
    process_audio_alert "swarming" = true ∧
    ¬ ((6 : ℚ) / 10 < np_max [1 / 2, 1 / 2, 0]) :=
  ⟨rfl, by decide⟩

/-- C8 amended: in process_gcs_event with the fallback classifier the notifier
fires exactly when the predicted index is swarming or distress (confidence is
then 0.85 which always passes the 0.6 test), while process_audio fires on a
swarming or distress label with no confidence test at all. -/
theorem C8_amended_alert_gating (fv : List ℚ) :
    (process_gcs_alert (predict_behavior fv) = true ↔
      rulePredict fv = 1 ∨ rulePredict fv = 2) ∧
    (∀ lbl : String, process_audio_alert lbl = true ↔
      (lbl = "swarming" ∨ lbl = "distress")) := by
  constructor
  · rcases rulePredict_cases fv with h | h | h <;>
      (rw [predict_behavior_eq, h]; simp [process_gcs_alert]; decide)
  · intro lbl
    simp [process_audio_alert, List.contains, List.elem_iff]

end Beehive
